import Mathlib

/-!
Shallow embedding of the omada-discord-webhook-bridge core:
the Omada-to-Discord translator (src/translator.js) and the
axios-based Discord sender (src/discord-sender.js, second variant,
whose line numbers the specification cites).

JavaScript conventions are modelled explicitly:
a missing field is an Option none; string truthiness is non-emptiness;
the result of Array.prototype.find is either undefined or the found
element itself; property lookup with a non-string key goes through
the ECMAScript ToString conversion of that key.
-/

namespace Bridge

/-- Source: translator.js lines 74-92. One entry of EVENT_TYPES_MAP.
Every regex in the table is an alternation of plain lowercase literals
with the i flag, so pats lists the alternatives and matching is
case-insensitive substring containment. -/
structure Rule where
  pats : List String
  type : String
deriving DecidableEq, Repr

/-- Boolean substring containment on character lists. -/
def containsSeq (pat : List Char) : List Char → Bool
  | [] => pat.isEmpty
  | c :: rest => List.isPrefixOf pat (c :: rest) || containsSeq pat rest

/-- ASCII lowercasing of one character. -/
def lowerChar (c : Char) : Char :=
  if 'A' ≤ c ∧ c ≤ 'Z' then Char.ofNat (c.toNat + 32) else c

/-- Case-insensitive substring test modelling RegExp.test with the i flag
for the literal-alternation patterns of EVENT_TYPES_MAP; all the
patterns and the inputs considered are ASCII, where per-character
ASCII lowercasing agrees with ECMAScript case folding. -/
def regexTestCI (pats : List String) (s : String) : Bool :=
  pats.any (fun p => containsSeq p.data (s.data.map lowerChar))

/-- Source: translator.js lines 74-92, EVENT_TYPES_MAP in source order. -/
def EVENT_TYPES_MAP : List Rule :=
  [ { pats := ["attack"], type := "ATTACK" },
    { pats := ["flood"], type := "ATTACK" },
    { pats := ["intrusion"], type := "INTRUSION" },
    { pats := ["error", "failed"], type := "ERROR" },
    { pats := ["dhcp"], type := "DHCP" },
    { pats := ["logs"], type := "LOGS" },
    { pats := ["logged out", "logged in"], type := "LOGGED_IN_OUT" },
    { pats := ["success"], type := "SUCCESS" },
    { pats := ["test"], type := "TEST" },
    { pats := ["device offline"], type := "DEVICE_OFFLINE" },
    { pats := ["device online"], type := "DEVICE_ONLINE" },
    { pats := ["client connected"], type := "CLIENT_CONNECTED" },
    { pats := ["client disconnected"], type := "CLIENT_DISCONNECTED" },
    { pats := ["firmware update"], type := "FIRMWARE_UPDATE" },
    { pats := ["configuration change"], type := "CONFIG_CHANGE" },
    { pats := ["bandwidth limit exceeded"], type := "BANDWIDTH_LIMIT" },
    { pats := ["authentication failure"], type := "AUTHENTICATION_FAILURE" } ]

/-- Source: translator.js lines 56-72, EVENT_TITLES as an association
list from category-name key to title. -/
def EVENT_TITLES : List (String × String) :=
  [ ("ATTACK", "🚨 Attack Detected"),
    ("INTRUSION", "🚨 Intrusion Detected"),
    ("DEVICE_OFFLINE", "📴 Device Offline"),
    ("DEVICE_ONLINE", "📶 Device Online"),
    ("CLIENT_CONNECTED", "✅ Client Connected"),
    ("CLIENT_DISCONNECTED", "❌ Client Disconnected"),
    ("FIRMWARE_UPDATE", "🔄 Firmware Update"),
    ("CONFIG_CHANGE", "⚙️ Configuration Change"),
    ("DHCP", "🖥️ DHCP"),
    ("LOGS", "📃 Logs"),
    ("BANDWIDTH_LIMIT", "⚠️ Bandwidth Limit Exceeded"),
    ("AUTHENTICATION_FAILURE", "🔐 Authentication Failure"),
    ("LOGGED_IN_OUT", "👤 Logged In/Out"),
    ("TEST", "🧪 Test"),
    ("DEFAULT", "📢 Omada Alert") ]

/-- Source: translator.js lines 30-51, ALERT_COLORS_MAPPING as an
association list from category-name key to color. -/
def ALERT_COLORS_MAPPING : List (String × Nat) :=
  [ ("CRITICAL", 0xFF0000),
    ("ERROR", 0xFF4500),
    ("WARNING", 0xFFA500),
    ("INFO", 0x00BFFF),
    ("SUCCESS", 0x00FF00),
    ("ATTACK", 0x8B0000),
    ("INTRUSION", 0x8B0000),
    ("DEVICE_OFFLINE", 0xFF4500),
    ("DEVICE_ONLINE", 0x00FF00),
    ("CLIENT_CONNECTED", 0x00FF00),
    ("CLIENT_DISCONNECTED", 0xFFA500),
    ("FIRMWARE_UPDATE", 0x00BFFF),
    ("CONFIG_CHANGE", 0x00BFFF),
    ("DEFAULT", 0x7289DA),
    ("DHCP", 0x7289DA),
    ("LOGS", 0x7289DA),
    ("LOGGED_IN_OUT", 0x7289DA),
    ("BANDWIDTH_LIMIT", 0x7289DA),
    ("AUTHENTICATION_FAILURE", 0x7289DA),
    ("TEST", 0x7289DA) ]

/-- Object property lookup on an association list with a string key. -/
def assocGet {α : Type} (m : List (String × α)) (k : String) : Option α :=
  (m.find? (fun p => p.1 == k)).map Prod.snd

/-- The JavaScript value held by the local variable named type in
translate (translator.js line 109): either undefined (no rule
matched), or the matched Rule object itself, since
EVENT_TYPES_MAP.find returns the element and not its type field.
The strVal constructor covers the direct calls with a string
argument made by the unit tests. -/
inductive TypeVal where
  | undef
  | ruleObj (r : Rule)
  | strVal (s : String)
deriving DecidableEq, Repr

/-- ECMAScript ToString of the value used as a property key:
undefined stringifies to the text undefined, an ordinary object to
the text between brackets below, a string to itself. -/
def jsKeyOf : TypeVal → String
  | TypeVal.undef => "undefined"
  | TypeVal.ruleObj _ => "[object Object]"
  | TypeVal.strVal s => s

/-- Source: translator.js lines 134-140, getEmbedColor: return the
mapped color when the lookup is truthy (a nonzero number), else the
DEFAULT color. -/
def getEmbedColor (t : TypeVal) : Nat :=
  match assocGet ALERT_COLORS_MAPPING (jsKeyOf t) with
  | some c => if c = 0 then 0x7289DA else c
  | none => 0x7289DA

/-- Source: translator.js line 111: EVENT_TITLES lookup with fallback
to the DEFAULT title when the lookup is falsy. -/
def titleFor (t : TypeVal) : String :=
  match assocGet EVENT_TITLES (jsKeyOf t) with
  | some s => if s = "" then "📢 Omada Alert" else s
  | none => "📢 Omada Alert"

/-- Array.prototype.includes comparison between a string element of
criticalTypes and the value held by type: SameValueZero, which is
true only when both sides are the same string. -/
def typeValEqStr (t : TypeVal) (c : String) : Bool :=
  match t with
  | TypeVal.strVal s => s == c
  | _ => false

/-- Source: translator.js lines 172-176, shouldMention. -/
def shouldMention (t : TypeVal) : Bool :=
  ["ATTACK", "INTRUSION"].any (fun c => typeValEqStr t c)

/-- The text field of an inbound Omada payload: absent, a string, or
an array of strings (the shapes the schema in the repository admits). -/
inductive TextField where
  | absent
  | str (s : String)
  | arr (xs : List String)
deriving DecidableEq, Repr

/-- A timestamp value of an inbound payload together with the outcome
of the platform date parse: an epoch-milliseconds number, a string
the platform parses to the given epoch instant, or a string the
platform cannot parse (new Date of it is an Invalid Date). The
string parse of ECMAScript is implementation-defined, so inbound
strings carry their parse result as data. -/
inductive TsVal where
  | num (n : Int)
  | validStr (s : String) (ms : Int)
  | invalidStr (s : String)
deriving DecidableEq, Repr

/-- JavaScript truthiness of a timestamp value: the number 0 and the
empty string are falsy. -/
def tsTruthy : TsVal → Bool
  | TsVal.num n => n ≠ 0
  | TsVal.validStr s _ => s ≠ ""
  | TsVal.invalidStr s => s ≠ ""

/-- The ECMAScript time value of new Date applied to the value: none
models an Invalid Date. A numeric argument is a valid time value
exactly when its magnitude is at most 8.64e15. -/
def jsNewDate : TsVal → Option Int
  | TsVal.num n => if n.natAbs ≤ 8640000000000000 then some n else none
  | TsVal.validStr _ ms => some ms
  | TsVal.invalidStr _ => none

/-- An inbound Omada event record with the fields translate reads
(translator.js lines 101-105, 145, 153, 161). -/
structure OmadaEvent where
  description : Option String
  text : TextField
  timestamp : Option TsVal
  Site : Option String
  Controller : Option String
deriving DecidableEq, Repr

/-- The second and third alternatives of translator.js line 107: the
text array joined by single spaces, or the text string, each taken
only when truthy, else the fixed fallback string. -/
def resolveFromText : TextField → String
  | TextField.absent => "No message provided"
  | TextField.str s => if s = "" then "No message provided" else s
  | TextField.arr xs =>
      let j := String.intercalate " " xs
      if j = "" then "No message provided" else j

/-- Source: translator.js line 107: description, else the text array
joined by single spaces or the text string, else the fallback; each
alternative is taken only when truthy (a non-empty string). -/
def resolveMessage (e : OmadaEvent) : String :=
  match e.description with
  | some d => if d = "" then resolveFromText e.text else d
  | none => resolveFromText e.text

/-- The string RegExp.test receives at translator.js line 109: the raw
text field coerced by ECMAScript ToString, so undefined becomes the
text undefined and an array becomes its elements joined by commas. -/
def textTestString : TextField → String
  | TextField.absent => "undefined"
  | TextField.str s => s
  | TextField.arr xs => String.intercalate "," xs

/-- Source: translator.js line 109: the find over EVENT_TYPES_MAP,
testing each regex against the raw text field. -/
def codeDetectedRule (e : OmadaEvent) : Option Rule :=
  EVENT_TYPES_MAP.find? (fun r => regexTestCI r.pats (textTestString e.text))

/-- The JavaScript value of the local variable type at line 109. -/
def typeValOfFind : Option Rule → TypeVal
  | none => TypeVal.undef
  | some r => TypeVal.ruleObj r

/-- One entry of an embed fields array (translator.js lines 146-166). -/
structure EmbedField where
  name : String
  value : String
  inline : Bool
deriving DecidableEq, Repr

/-- Source: translator.js lines 145-151: the Site field is pushed when
payload.Site is truthy. -/
def siteFieldList (e : OmadaEvent) : List EmbedField :=
  match e.Site with
  | some s => if s = "" then [] else [{ name := "🏢 Site", value := s, inline := true }]
  | none => []

/-- Source: translator.js lines 153-159: the Controller field is pushed
when payload.Controller is truthy. -/
def controllerFieldList (e : OmadaEvent) : List EmbedField :=
  match e.Controller with
  | some s => if s = "" then [] else [{ name := "🎛️ Controller", value := s, inline := true }]
  | none => []

/-- Source: translator.js lines 161-167: the Details field is pushed
when payload.text is a non-empty array, with the lines joined by
newlines. -/
def detailsFieldList (e : OmadaEvent) : List EmbedField :=
  match e.text with
  | TextField.arr xs =>
      if xs.isEmpty then []
      else [{ name := "📋 Details", value := String.intercalate "\n" xs, inline := false }]
  | _ => []

/-- Source: translator.js lines 142-170, buildFields: the pushes in
source order. -/
def buildFields (e : OmadaEvent) : List EmbedField :=
  siteFieldList e ++ controllerFieldList e ++ detailsFieldList e

/-- Left-pad a natural number with zeros to the given width. -/
def padNum (width n : Nat) : String :=
  let s := toString n
  String.mk (List.replicate (width - s.length) '0') ++ s

/-- ECMAScript Date.prototype.toISOString on an epoch-milliseconds
time value, for instants whose proleptic Gregorian year lies in
0000-9999 (the four-digit format; all instants in this development
are of that form). Calendar conversion follows the standard civil
from days algorithm. -/
def toISOString (ms : Int) : String :=
  let day : Int := Int.fdiv ms 86400000
  let msod : Nat := (ms - day * 86400000).toNat
  let hh := msod / 3600000
  let mi := msod % 3600000 / 60000
  let ss := msod % 60000 / 1000
  let mmm := msod % 1000
  let z : Int := day + 719468
  let era : Int := Int.fdiv z 146097
  let doe : Nat := (z - era * 146097).toNat
  let yoe : Nat := (doe - doe / 1460 + doe / 36524 - doe / 146096) / 365
  let y : Int := (yoe : Int) + era * 400
  let doy : Nat := doe - (365 * yoe + yoe / 4 - yoe / 100)
  let mp : Nat := (5 * doy + 2) / 153
  let d : Nat := doy - (153 * mp + 2) / 5 + 1
  let mo : Nat := if mp < 10 then mp + 3 else mp - 9
  let yr : Int := y + (if mo ≤ 2 then 1 else 0)
  padNum 4 yr.toNat ++ "-" ++ padNum 2 mo ++ "-" ++ padNum 2 d ++ "T" ++
    padNum 2 hh ++ ":" ++ padNum 2 mi ++ ":" ++ padNum 2 ss ++ "." ++ padNum 3 mmm ++ "Z"

/-- The failures translate can signal: the explicit invalid-payload
throw at translator.js line 98, and the RangeError thrown by
toISOString on an Invalid Date at line 108. -/
inductive JsError where
  | invalidPayload
  | rangeError
deriving DecidableEq, Repr

/-- Source: translator.js line 108: a truthy timestamp is passed to new
Date and rendered with toISOString, which throws a RangeError on an
Invalid Date; a falsy or missing timestamp yields the current
instant, supplied as the now argument. -/
def resolveTimestamp (ts : Option TsVal) (now : Int) : Except JsError String :=
  match ts with
  | some v =>
      if tsTruthy v then
        match jsNewDate v with
        | some ms => Except.ok (toISOString ms)
        | none => Except.error JsError.rangeError
      else Except.ok (toISOString now)
  | none => Except.ok (toISOString now)

/-- One Discord embed as built by translate (translator.js lines 113-119). -/
structure OmadaEmbed where
  title : String
  description : String
  color : Nat
  timestamp : String
  fields : List EmbedField
deriving DecidableEq, Repr

/-- The Discord payload built by translate (translator.js lines 121-129). -/
structure DiscordPayload where
  username : String
  avatar_url : String
  embeds : List OmadaEmbed
  content : Option String
deriving DecidableEq, Repr

/-- Source: translator.js lines 96-132, translate, on an inbound record
that passed the shape check; now is the current clock instant in
epoch milliseconds. -/
def translateEvent (e : OmadaEvent) (now : Int) : Except JsError DiscordPayload :=
  let message := resolveMessage e
  match resolveTimestamp e.timestamp now with
  | Except.error er => Except.error er
  | Except.ok ts =>
      let t := typeValOfFind (codeDetectedRule e)
      let embed : OmadaEmbed :=
        { title := titleFor t
          description := message
          color := getEmbedColor t
          timestamp := ts
          fields := buildFields e }
      let base : DiscordPayload :=
        { username := "Omada Controller"
          avatar_url := "https://static.tp-link.com/favicon.ico"
          embeds := [embed]
          content := none }
      Except.ok (if shouldMention t then { base with content := some "@here" } else base)

/-- A top-level JavaScript value handed to translate: null, undefined,
a primitive, an array, or an object record. Destructuring and named
property reads on an array yield undefined, so an array behaves as
an event with every field absent. -/
inductive JsInput where
  | jsNull
  | jsUndef
  | boolVal (b : Bool)
  | numVal (n : Int)
  | strVal (s : String)
  | arrVal
  | objVal (e : OmadaEvent)
deriving DecidableEq, Repr

/-- Source: translator.js lines 97-99: the shape check. Falsy values
and values whose typeof is not object throw; null is falsy; an array
has typeof object and passes. -/
def translateTop (inp : JsInput) (now : Int) : Except JsError DiscordPayload :=
  match inp with
  | JsInput.jsNull => Except.error JsError.invalidPayload
  | JsInput.jsUndef => Except.error JsError.invalidPayload
  | JsInput.boolVal _ => Except.error JsError.invalidPayload
  | JsInput.numVal _ => Except.error JsError.invalidPayload
  | JsInput.strVal _ => Except.error JsError.invalidPayload
  | JsInput.arrVal =>
      translateEvent { description := none, text := TextField.absent, timestamp := none,
                       Site := none, Controller := none } now
  | JsInput.objVal e => translateEvent e now

/-- The category the specification assigns to an event: first rule of
EVENT_TYPES_MAP matching the resolved canonical message text,
DEFAULT when none matches. This definition follows the words of the
specification, for comparison with codeDetectedRule. -/
def specDetectedCategory (e : OmadaEvent) : String :=
  match EVENT_TYPES_MAP.find? (fun r => regexTestCI r.pats (resolveMessage e)) with
  | some r => r.type
  | none => "DEFAULT"

/-- Footer of an embed handed to the sender (discord-sender.js line 318). -/
structure EmbedFooter where
  text : Option String
deriving DecidableEq, Repr

/-- Author of an embed handed to the sender (discord-sender.js line 323). -/
structure EmbedAuthor where
  name : Option String
deriving DecidableEq, Repr

/-- An embed as inspected by validateEmbed and calculateEmbedLength
(discord-sender.js lines 282-354); the color and timestamp members
are carried but never validated. -/
structure SenderEmbed where
  title : Option String
  description : Option String
  color : Option Nat
  timestamp : Option String
  fields : Option (List EmbedField)
  footer : Option EmbedFooter
  author : Option EmbedAuthor
deriving DecidableEq, Repr

/-- A payload as inspected by validatePayload (discord-sender.js lines
239-275). -/
structure SenderPayload where
  content : Option String
  embeds : Option (List SenderEmbed)
  username : Option String
deriving DecidableEq, Repr

/-- JavaScript test of the form value && value.length > n on an
optional string member. -/
def strOptLongerThan (o : Option String) (n : Nat) : Bool :=
  match o with
  | some s => n < s.length
  | none => false

/-- Length contribution of an optional string member under a truthiness
guard: the empty string contributes 0 either way. -/
def optLen (o : Option String) : Nat :=
  match o with
  | some s => s.length
  | none => 0

/-- Source: discord-sender.js lines 339-354, calculateEmbedLength. -/
def calculateEmbedLength (e : SenderEmbed) : Nat :=
  optLen e.title + optLen e.description +
    (match e.footer with | some f => optLen f.text | none => 0) +
    (match e.author with | some a => optLen a.name | none => 0) +
    (match e.fields with
     | some fs => (fs.map (fun f => f.name.length + f.value.length)).foldr (· + ·) 0
     | none => 0)

/-- Source: discord-sender.js lines 307-314: the per-field forEach loop;
the first throw aborts the loop. -/
def firstFieldError (i : Nat) (fi : Nat) : List EmbedField → Except String Unit
  | [] => Except.ok ()
  | f :: rest =>
      if f.name = "" ∨ 256 < f.name.length then
        Except.error ("Embed " ++ toString i ++ " field " ++ toString fi ++
          " name must be 1-256 characters")
      else if f.value = "" ∨ 1024 < f.value.length then
        Except.error ("Embed " ++ toString i ++ " field " ++ toString fi ++
          " value must be 1-1024 characters")
      else firstFieldError i (fi + 1) rest

/-- Source: discord-sender.js lines 282-332, validateEmbed, with the
checks in source order; the embed is an object by construction and
its fields member, when present, is an array by construction. -/
def validateEmbed (i : Nat) (e : SenderEmbed) : Except String Unit :=
  if strOptLongerThan e.title 256 then
    Except.error ("Embed " ++ toString i ++ " title must be 256 characters or less")
  else if strOptLongerThan e.description 4096 then
    Except.error ("Embed " ++ toString i ++ " description must be 4096 characters or less")
  else
    match (match e.fields with
           | some fs =>
               if 25 < fs.length then
                 Except.error ("Embed " ++ toString i ++ " can have maximum 25 fields")
               else firstFieldError i 0 fs
           | none => Except.ok ()) with
    | Except.error m => Except.error m
    | Except.ok _ =>
        if (match e.footer with | some f => strOptLongerThan f.text 2048 | none => false) then
          Except.error ("Embed " ++ toString i ++ " footer text must be 2048 characters or less")
        else if (match e.author with | some a => strOptLongerThan a.name 256 | none => false) then
          Except.error ("Embed " ++ toString i ++ " author name must be 256 characters or less")
        else if 6000 < calculateEmbedLength e then
          Except.error ("Embed " ++ toString i ++ " total length must be 6000 characters or less")
        else Except.ok ()

/-- Source: discord-sender.js lines 264-266: the per-embed forEach loop;
the first throw aborts the loop. -/
def firstEmbedError (i : Nat) : List SenderEmbed → Except String Unit
  | [] => Except.ok ()
  | e :: rest =>
      match validateEmbed i e with
      | Except.error m => Except.error m
      | Except.ok _ => firstEmbedError (i + 1) rest

/-- Source: discord-sender.js lines 239-275, validatePayload, with the
checks in source order; the payload is an object and its embeds
member, when present, is an array by construction. -/
def validatePayload (p : SenderPayload) : Except String Unit :=
  if (match p.content with | some c => c == "" | none => true) &&
     (match p.embeds with | some l => l.isEmpty | none => true) then
    Except.error "Payload must have either content or embeds"
  else if strOptLongerThan p.content 2000 then
    Except.error "Content must be 2000 characters or less"
  else
    match (match p.embeds with
           | some embeds =>
               if 10 < embeds.length then Except.error "Maximum 10 embeds allowed"
               else firstEmbedError 0 embeds
           | none => Except.ok ()) with
    | Except.error m => Except.error m
    | Except.ok _ =>
        if strOptLongerThan p.username 80 then
          Except.error "Username must be 80 characters or less"
        else Except.ok ()

/-- The ways the single axios.post call of send can fail (discord-sender.js
lines 198-232): an HTTP error response with a status and a downstream
message, an aborted (timed out) request, a refused connection, a DNS
failure, or some other rejection. -/
inductive NetFailure where
  | httpError (status : Nat) (msg : String)
  | timedOut
  | connRefused
  | dnsFail
  | otherFailure (msg : String)
deriving DecidableEq, Repr

/-- Outcome of the single network call: the resolved response status,
or a failure. -/
inductive NetOutcome where
  | ok (status : Nat)
  | fail (f : NetFailure)
deriving DecidableEq, Repr

/-- The classified errors send can signal, one constructor per throw
site of discord-sender.js lines 198-232 plus the pre-send validation
throws: validation is the ValidationError family, rateLimited the
RateLimitError, invalidPayload the downstream 400 branch, notFound
the NotFoundError, serverError the ServerError, apiGeneric and
generic the generic catch-all family, timeout the TimeoutError, and
network the NetworkError. -/
inductive SendError where
  | validation (msg : String)
  | rateLimited (msg : String)
  | invalidPayload (msg : String)
  | notFound
  | serverError (status : Nat)
  | apiGeneric (status : Nat) (msg : String)
  | timeout
  | network
  | generic (msg : String)
deriving DecidableEq, Repr

/-- JavaScript msg || fallback on the downstream data.message, with the
empty string standing for an absent message. -/
def jsOrStr (m dflt : String) : String :=
  if m = "" then dflt else m

/-- Source: discord-sender.js lines 198-232, the catch block of send:
classification of a network failure in source branch order. -/
def classifySendFailure : NetFailure → SendError
  | NetFailure.httpError status m =>
      if status = 429 then SendError.rateLimited (jsOrStr m "Too many requests")
      else if status = 400 then SendError.invalidPayload (jsOrStr m "Bad request")
      else if status = 404 then SendError.notFound
      else if 500 ≤ status then SendError.serverError status
      else SendError.apiGeneric status (jsOrStr m "Unknown error")
  | NetFailure.timedOut => SendError.timeout
  | NetFailure.connRefused => SendError.network
  | NetFailure.dnsFail => SendError.network
  | NetFailure.otherFailure m => SendError.generic m

/-- The success value send resolves with (discord-sender.js lines 192-196). -/
structure DeliveryOutcome where
  success : Bool
  status : Nat
  message : String
deriving DecidableEq, Repr

deriving instance DecidableEq for Except

/-- Observable result of one call to send: the returned or thrown
outcome, whether the network call was reached, how long the caller
was suspended by handleRateLimit, and the value of lastSentTime
after the call. -/
structure SendResult where
  outcome : Except SendError DeliveryOutcome
  networkCalled : Bool
  waitedMs : Int
  lastSentTimeAfter : Int
deriving DecidableEq, Repr

/-- Source: discord-sender.js lines 171-233 (send) and 359-366
(handleRateLimit), sequential execution: validate, then suspend for
the remaining difference when less than rateLimitDelay elapsed since
lastSentTime, then perform the single network call; on success
lastSentTime becomes the completion instant finishTime, on failure
it is left unchanged and the classified error is thrown. now is
Date.now() at the handleRateLimit check, finishTime is Date.now()
right after the network call resolves. -/
def sendModel (rateLimitDelay lastSentTime now finishTime : Int) (net : NetOutcome)
    (p : SenderPayload) : SendResult :=
  match validatePayload p with
  | Except.error m =>
      { outcome := Except.error (SendError.validation m)
        networkCalled := false
        waitedMs := 0
        lastSentTimeAfter := lastSentTime }
  | Except.ok _ =>
      let timeSince := now - lastSentTime
      let waited := if timeSince < rateLimitDelay then rateLimitDelay - timeSince else 0
      match net with
      | NetOutcome.ok status =>
          { outcome := Except.ok
              { success := true, status := status, message := "Message sent successfully" }
            networkCalled := true
            waitedMs := waited
            lastSentTimeAfter := finishTime }
      | NetOutcome.fail f =>
          { outcome := Except.error (classifySendFailure f)
            networkCalled := true
            waitedMs := waited
            lastSentTimeAfter := lastSentTime }

/-- Source: discord-sender.js line 162: the constructor default
rateLimitDelay = config value || 1000, with the number 0 falsy. -/
def rateLimitDelayOf (cfg : Option Int) : Int :=
  match cfg with
  | some d => if d = 0 then 1000 else d
  | none => 1000

/-- Whether a top-level JavaScript value is null, undefined or a
non-object primitive. -/
def isPrimitiveInput : JsInput → Bool
  | JsInput.jsNull => true
  | JsInput.jsUndef => true
  | JsInput.boolVal _ => true
  | JsInput.numVal _ => true
  | JsInput.strVal _ => true
  | JsInput.arrVal => false
  | JsInput.objVal _ => false

/-- Closed form of translateEvent: the timestamp resolution is the only
failing step, and the rest of the payload is built deterministically
from the event. -/
theorem translateEvent_eq (e : OmadaEvent) (now : Int) :
    translateEvent e now = (resolveTimestamp e.timestamp now).map (fun ts =>
      { username := "Omada Controller"
        avatar_url := "https://static.tp-link.com/favicon.ico"
        embeds := [{ title := titleFor (typeValOfFind (codeDetectedRule e))
                     description := resolveMessage e
                     color := getEmbedColor (typeValOfFind (codeDetectedRule e))
                     timestamp := ts
                     fields := buildFields e }]
        content := if shouldMention (typeValOfFind (codeDetectedRule e))
                   then some "@here" else none }) := by
  unfold translateEvent
  cases resolveTimestamp e.timestamp now with
  | error er => rfl
  | ok ts =>
      simp only [Except.map]
      split <;> rfl

/-- resolveTimestamp can only fail with a RangeError. -/
theorem resolveTimestamp_error_eq (ts : Option TsVal) (now : Int) (er : JsError)
    (h : resolveTimestamp ts now = Except.error er) : er = JsError.rangeError := by
  unfold resolveTimestamp at h
  cases ts with
  | none => simp at h
  | some v =>
      by_cases ht : tsTruthy v
      · simp only [ht, if_true] at h
        cases hj : jsNewDate v <;> rw [hj] at h <;> simp at h
        exact h.symm
      · simp [ht] at h

/-- translateEvent never fails with the invalid-payload error. -/
theorem translateEvent_ne_invalid (e : OmadaEvent) (now : Int) :
    translateEvent e now ≠ Except.error JsError.invalidPayload := by
  rw [translateEvent_eq]
  cases h : resolveTimestamp e.timestamp now with
  | ok ts => simp [Except.map]
  | error er =>
      have her := resolveTimestamp_error_eq e.timestamp now er h
      simp [Except.map, her]

/-- The attack event of the repository test suite: a description and no
text field. -/
def attackDescriptionEvent : OmadaEvent :=
  { description := some "Attack detected from external source"
    text := TextField.absent
    timestamp := none
    Site := none
    Controller := none }

/-- An event whose raw text field is the string beginning with attack. -/
def attackTextEvent : OmadaEvent :=
  { description := none
    text := TextField.str "attack detected"
    timestamp := none
    Site := none
    Controller := none }

/-- An event whose raw text field is the single word attack. -/
def attackWordEvent : OmadaEvent :=
  { description := none
    text := TextField.str "attack"
    timestamp := none
    Site := none
    Controller := none }

/-- An event carrying a timestamp string the platform cannot parse. -/
def badTimestampEvent : OmadaEvent :=
  { description := some "x"
    text := TextField.absent
    timestamp := some (TsVal.invalidStr "not-a-date")
    Site := none
    Controller := none }

/-- An event carrying the epoch-milliseconds timestamp of 2024-01-01. -/
def epochTimestampEvent : OmadaEvent :=
  { description := some "x"
    text := TextField.absent
    timestamp := some (TsVal.num 1704067200000)
    Site := none
    Controller := none }

/-- C1: evaluation at an input taken from the repository test suite
(an event whose description reads Attack detected from external
source and whose text field is absent). The code scans the raw text
field, which stringifies to the text undefined, so no rule is
detected, while the rule list applied to the resolved canonical
message text detects ATTACK; the title emitted for the event is the
DEFAULT one. This exhibits that category detection does not scan the
resolved message text, contradicting the claim and the repository
test expectations. -/
theorem c1_raw_text_scan_divergence :
    codeDetectedRule attackDescriptionEvent = none ∧
    specDetectedCategory attackDescriptionEvent = "ATTACK" ∧
    (translateEvent attackDescriptionEvent 0).map
        (fun p => p.embeds.map OmadaEmbed.title) = Except.ok ["📢 Omada Alert"] := by
  exact ⟨by decide, by decide, by decide⟩

/-- C2: evaluation at an event whose text field is the string attack
detected. The first rule of EVENT_TYPES_MAP matches it, and the
shouldMention helper answers true on the string ATTACK, yet the
translated payload carries no content mention, because translate
hands shouldMention the whole rule object returned by find instead
of its type string. This contradicts the claim and the repository
test that expects the broadcast mention for attack events. -/
theorem c2_mention_never_added_divergence :
    (codeDetectedRule attackTextEvent).map Rule.type = some "ATTACK" ∧
    shouldMention (TypeVal.strVal "ATTACK") = true ∧
    (translateEvent attackTextEvent 0).map DiscordPayload.content = Except.ok none := by
  exact ⟨by decide, by decide, by decide⟩

/-- C5: evaluation at an event whose text field is the string attack.
The detected rule has type ATTACK and EVENT_TITLES assigns ATTACK
the attack title, yet the emitted embed carries the DEFAULT title
and the DEFAULT color, because the lookups are keyed by the rule
object (whose property key is the text between brackets below) and
therefore always miss. This contradicts the claim and the repository
tests on titles. -/
theorem c5_title_color_default_divergence :
    (codeDetectedRule attackWordEvent).map Rule.type = some "ATTACK" ∧
    assocGet EVENT_TITLES "ATTACK" = some "🚨 Attack Detected" ∧
    (translateEvent attackWordEvent 0).map
        (fun p => p.embeds.map (fun em => (em.title, em.color))) =
      Except.ok [("📢 Omada Alert", 0x7289DA)] := by
  exact ⟨by decide, by decide, by decide⟩

/-- C3 counterexample: an event carrying a truthy timestamp value that
the platform cannot parse makes translation signal a RangeError
instead of falling back to the current time, so translation does
crash on a malformed timestamp value. -/
theorem c3_invalid_timestamp_crash_counterexample :
    translateEvent badTimestampEvent 0 = Except.error JsError.rangeError := by
  decide

/-- C3 amended: when the event carries no timestamp, or a falsy one
(the number 0 or the empty string), the current instant is rendered;
when it carries a truthy timestamp that parses to a valid date, that
instant is rendered as ISO-8601; when it carries a truthy timestamp
that produces an invalid date, translation signals a RangeError
rather than falling back. -/
theorem c3_timestamp_resolution (e : OmadaEvent) (now : Int) :
    (e.timestamp = none →
      (translateEvent e now).map (fun p => p.embeds.map OmadaEmbed.timestamp) =
        Except.ok [toISOString now]) ∧
    (∀ v, e.timestamp = some v → tsTruthy v = false →
      (translateEvent e now).map (fun p => p.embeds.map OmadaEmbed.timestamp) =
        Except.ok [toISOString now]) ∧
    (∀ v ms, e.timestamp = some v → tsTruthy v = true → jsNewDate v = some ms →
      (translateEvent e now).map (fun p => p.embeds.map OmadaEmbed.timestamp) =
        Except.ok [toISOString ms]) ∧
    (∀ v, e.timestamp = some v → tsTruthy v = true → jsNewDate v = none →
      translateEvent e now = Except.error JsError.rangeError) := by
  constructor
  · intro h
    rw [translateEvent_eq, h]
    simp [resolveTimestamp, Except.map]
  constructor
  · intro v h ht
    rw [translateEvent_eq, h]
    simp [resolveTimestamp, ht, Except.map]
  constructor
  · intro v ms h ht hj
    rw [translateEvent_eq, h]
    simp [resolveTimestamp, ht, hj, Except.map]
  · intro v h ht hj
    rw [translateEvent_eq, h]
    simp [resolveTimestamp, ht, hj, Except.map]

/-- C3 witness: the amended theorem applied to an event carrying the
epoch-milliseconds timestamp of 2024-01-01. -/
theorem c3_timestamp_resolution_witness :
    (translateEvent epochTimestampEvent 0).map
      (fun p => p.embeds.map OmadaEmbed.timestamp) = Except.ok [toISOString 1704067200000] :=
  (c3_timestamp_resolution epochTimestampEvent 0).2.2.1
    (TsVal.num 1704067200000) 1704067200000 rfl (by decide) (by decide)

/-- C6 counterexample: a top-level array passes the shape check of
translate and yields an outbound message, although the claim states
that an array at the top level signals an InvalidInputError. -/
theorem c6_array_accepted_counterexample :
    translateTop JsInput.arrVal 0 =
      Except.ok { username := "Omada Controller"
                  avatar_url := "https://static.tp-link.com/favicon.ico"
                  embeds := [{ title := "📢 Omada Alert"
                               description := "No message provided"
                               color := 0x7289DA
                               timestamp := "1970-01-01T00:00:00.000Z"
                               fields := [] }]
                  content := none } := by
  decide

/-- Membership characterization of the Site piece of buildFields. -/
theorem mem_siteFieldList (e : OmadaEvent) (f : EmbedField) :
    f ∈ siteFieldList e ↔
      ∃ s, e.Site = some s ∧ s ≠ "" ∧ f = { name := "🏢 Site", value := s, inline := true } := by
  unfold siteFieldList
  cases hs : e.Site with
  | none => simp
  | some s =>
      by_cases h : s = "" <;> simp [h]

/-- Membership characterization of the Controller piece of buildFields. -/
theorem mem_controllerFieldList (e : OmadaEvent) (f : EmbedField) :
    f ∈ controllerFieldList e ↔
      ∃ s, e.Controller = some s ∧ s ≠ "" ∧
        f = { name := "🎛️ Controller", value := s, inline := true } := by
  unfold controllerFieldList
  cases hs : e.Controller with
  | none => simp
  | some s =>
      by_cases h : s = "" <;> simp [h]

/-- Membership characterization of the Details piece of buildFields. -/
theorem mem_detailsFieldList (e : OmadaEvent) (f : EmbedField) :
    f ∈ detailsFieldList e ↔
      ∃ xs, e.text = TextField.arr xs ∧ xs ≠ [] ∧
        f = { name := "📋 Details", value := String.intercalate "\n" xs, inline := false } := by
  unfold detailsFieldList
  cases ht : e.text with
  | absent => simp
  | str s => simp
  | arr xs =>
      cases xs with
      | nil => simp
      | cons a rest => simp [List.isEmpty]

/-- buildFields is the concatenation of its three pieces. -/
theorem mem_buildFields (e : OmadaEvent) (f : EmbedField) :
    f ∈ buildFields e ↔
      f ∈ siteFieldList e ∨ f ∈ controllerFieldList e ∨ f ∈ detailsFieldList e := by
  simp [buildFields, List.mem_append, or_assoc]

/-- C6 amended: translate signals the invalid-payload error exactly
when the input is null, undefined or a non-object primitive; a
top-level array passes the shape check and is translated like an
object record with every recognized field absent. -/
theorem c6_invalid_input_iff (inp : JsInput) (now : Int) :
    translateTop inp now = Except.error JsError.invalidPayload ↔
      isPrimitiveInput inp = true := by
  cases inp <;>
    simp [translateTop, isPrimitiveInput, translateEvent_ne_invalid]

/-- A successful translation carries the fixed sender identity and one
embed whose fields are buildFields of the event. -/
theorem translateEvent_ok_embeds (e : OmadaEvent) (now : Int) (p : DiscordPayload)
    (h : translateEvent e now = Except.ok p) :
    p.username = "Omada Controller" ∧
    p.avatar_url = "https://static.tp-link.com/favicon.ico" ∧
    ∃ ts, p.embeds =
      [{ title := titleFor (typeValOfFind (codeDetectedRule e))
         description := resolveMessage e
         color := getEmbedColor (typeValOfFind (codeDetectedRule e))
         timestamp := ts
         fields := buildFields e }] := by
  rw [translateEvent_eq] at h
  cases hts : resolveTimestamp e.timestamp now <;> rw [hts] at h <;> simp [Except.map] at h
  subst h
  exact ⟨rfl, rfl, _, rfl⟩

/-- The Site piece contributes at most the Site field name. -/
theorem siteFieldList_names (e : OmadaEvent) :
    List.Sublist ((siteFieldList e).map EmbedField.name) ["🏢 Site"] := by
  unfold siteFieldList
  cases e.Site with
  | none => exact List.nil_sublist _
  | some s =>
      dsimp only
      by_cases h : s = ""
      · simp [h]
      · rw [if_neg h]
        exact List.Sublist.refl _

/-- The Controller piece contributes at most the Controller field name. -/
theorem controllerFieldList_names (e : OmadaEvent) :
    List.Sublist ((controllerFieldList e).map EmbedField.name) ["🎛️ Controller"] := by
  unfold controllerFieldList
  cases e.Controller with
  | none => exact List.nil_sublist _
  | some s =>
      dsimp only
      by_cases h : s = ""
      · simp [h]
      · rw [if_neg h]
        exact List.Sublist.refl _

/-- The Details piece contributes at most the Details field name. -/
theorem detailsFieldList_names (e : OmadaEvent) :
    List.Sublist ((detailsFieldList e).map EmbedField.name) ["📋 Details"] := by
  unfold detailsFieldList
  cases e.text with
  | absent => exact List.nil_sublist _
  | str s => exact List.nil_sublist _
  | arr xs =>
      dsimp only
      by_cases h : xs.isEmpty
      · simp [h]
      · rw [if_neg h]
        exact List.Sublist.refl _

/-- The field names of buildFields follow the order Site, Controller,
Details, each at most once. -/
theorem buildFields_names_sublist (e : OmadaEvent) :
    List.Sublist ((buildFields e).map EmbedField.name)
      ["🏢 Site", "🎛️ Controller", "📋 Details"] := by
  have h := (siteFieldList_names e).append
    ((controllerFieldList_names e).append (detailsFieldList_names e))
  simpa [buildFields, List.map_append] using h

/-- C4: every successfully translated payload holds exactly one embed;
that embed has a Site field exactly when the Site label is present
and non-empty, a Controller field exactly when the Controller label
is present and non-empty, and a Details field exactly when the text
field is a non-empty array; the Site and Controller fields are
inline and carry the label values, the Details field is not inline
and carries the newline-joined lines; the fields appear in the order
Site, Controller, Details. -/
theorem c4_fields_structure (e : OmadaEvent) (now : Int) (p : DiscordPayload)
    (h : translateEvent e now = Except.ok p) :
    ∃ emb, p.embeds = [emb] ∧
      ((∃ f, f ∈ emb.fields ∧ f.name = "🏢 Site") ↔ ∃ s, e.Site = some s ∧ s ≠ "") ∧
      ((∃ f, f ∈ emb.fields ∧ f.name = "🎛️ Controller") ↔
        ∃ s, e.Controller = some s ∧ s ≠ "") ∧
      ((∃ f, f ∈ emb.fields ∧ f.name = "📋 Details") ↔
        ∃ xs, e.text = TextField.arr xs ∧ xs ≠ []) ∧
      (∀ f, f ∈ emb.fields → f.name = "🏢 Site" →
        f.inline = true ∧ e.Site = some f.value) ∧
      (∀ f, f ∈ emb.fields → f.name = "🎛️ Controller" →
        f.inline = true ∧ e.Controller = some f.value) ∧
      (∀ f, f ∈ emb.fields → f.name = "📋 Details" →
        f.inline = false ∧ ∃ xs, e.text = TextField.arr xs ∧ xs ≠ [] ∧
          f.value = String.intercalate "\n" xs) ∧
      List.Sublist (emb.fields.map EmbedField.name)
        ["🏢 Site", "🎛️ Controller", "📋 Details"] := by
  obtain ⟨-, -, ts, hembeds⟩ := translateEvent_ok_embeds e now p h
  refine ⟨_, hembeds, ?_, ?_, ?_, ?_, ?_, ?_, buildFields_names_sublist e⟩
  · constructor
    · rintro ⟨f, hf, hn⟩
      rcases (mem_buildFields e f).1 hf with hm | hm | hm
      · obtain ⟨s, hs, hne, rfl⟩ := (mem_siteFieldList e f).1 hm
        exact ⟨s, hs, hne⟩
      · obtain ⟨s, hs, hne, rfl⟩ := (mem_controllerFieldList e f).1 hm
        simp at hn
      · obtain ⟨xs, hx, hne, rfl⟩ := (mem_detailsFieldList e f).1 hm
        simp at hn
    · rintro ⟨s, hs, hne⟩
      exact ⟨{ name := "🏢 Site", value := s, inline := true },
        (mem_buildFields e _).2 (Or.inl ((mem_siteFieldList e _).2 ⟨s, hs, hne, rfl⟩)), rfl⟩
  · constructor
    · rintro ⟨f, hf, hn⟩
      rcases (mem_buildFields e f).1 hf with hm | hm | hm
      · obtain ⟨s, hs, hne, rfl⟩ := (mem_siteFieldList e f).1 hm
        simp at hn
      · obtain ⟨s, hs, hne, rfl⟩ := (mem_controllerFieldList e f).1 hm
        exact ⟨s, hs, hne⟩
      · obtain ⟨xs, hx, hne, rfl⟩ := (mem_detailsFieldList e f).1 hm
        simp at hn
    · rintro ⟨s, hs, hne⟩
      exact ⟨{ name := "🎛️ Controller", value := s, inline := true },
        (mem_buildFields e _).2 (Or.inr (Or.inl
          ((mem_controllerFieldList e _).2 ⟨s, hs, hne, rfl⟩))), rfl⟩
  · constructor
    · rintro ⟨f, hf, hn⟩
      rcases (mem_buildFields e f).1 hf with hm | hm | hm
      · obtain ⟨s, hs, hne, rfl⟩ := (mem_siteFieldList e f).1 hm
        simp at hn
      · obtain ⟨s, hs, hne, rfl⟩ := (mem_controllerFieldList e f).1 hm
        simp at hn
      · obtain ⟨xs, hx, hne, rfl⟩ := (mem_detailsFieldList e f).1 hm
        exact ⟨xs, hx, hne⟩
    · rintro ⟨xs, hx, hne⟩
      exact ⟨{ name := "📋 Details", value := String.intercalate "\n" xs, inline := false },
        (mem_buildFields e _).2 (Or.inr (Or.inr
          ((mem_detailsFieldList e _).2 ⟨xs, hx, hne, rfl⟩))), rfl⟩
  · intro f hf hn
    rcases (mem_buildFields e f).1 hf with hm | hm | hm
    · obtain ⟨s, hs, hne, rfl⟩ := (mem_siteFieldList e f).1 hm
      exact ⟨rfl, hs⟩
    · obtain ⟨s, hs, hne, rfl⟩ := (mem_controllerFieldList e f).1 hm
      simp at hn
    · obtain ⟨xs, hx, hne, rfl⟩ := (mem_detailsFieldList e f).1 hm
      simp at hn
  · intro f hf hn
    rcases (mem_buildFields e f).1 hf with hm | hm | hm
    · obtain ⟨s, hs, hne, rfl⟩ := (mem_siteFieldList e f).1 hm
      simp at hn
    · obtain ⟨s, hs, hne, rfl⟩ := (mem_controllerFieldList e f).1 hm
      exact ⟨rfl, hs⟩
    · obtain ⟨xs, hx, hne, rfl⟩ := (mem_detailsFieldList e f).1 hm
      simp at hn
  · intro f hf hn
    rcases (mem_buildFields e f).1 hf with hm | hm | hm
    · obtain ⟨s, hs, hne, rfl⟩ := (mem_siteFieldList e f).1 hm
      simp at hn
    · obtain ⟨s, hs, hne, rfl⟩ := (mem_controllerFieldList e f).1 hm
      simp at hn
    · obtain ⟨xs, hx, hne, rfl⟩ := (mem_detailsFieldList e f).1 hm
      exact ⟨rfl, xs, hx, hne, rfl⟩

/-- The attack scenario event of the specification: a description, a
Site label and a Controller label. -/
def scenarioEvent : OmadaEvent :=
  { description := some "DDoS attack detected"
    text := TextField.absent
    timestamp := none
    Site := some "HQ"
    Controller := some "C1" }

/-- C4 witness: the field-structure theorem applied to the scenario
event of the specification. -/
theorem c4_fields_structure_witness :
    ∃ p, translateEvent scenarioEvent 0 = Except.ok p ∧
      ∃ emb, p.embeds = [emb] ∧
        ((∃ f, f ∈ emb.fields ∧ f.name = "🏢 Site") ↔
          ∃ s, scenarioEvent.Site = some s ∧ s ≠ "") :=
  ⟨_, rfl, by
    obtain ⟨emb, he, hsite, -⟩ := c4_fields_structure scenarioEvent 0 _ rfl
    exact ⟨emb, he, hsite⟩⟩

/-- The Site piece has at most one entry. -/
theorem siteFieldList_length_le (e : OmadaEvent) : (siteFieldList e).length ≤ 1 := by
  unfold siteFieldList
  cases e.Site with
  | none => simp
  | some s => dsimp only; split <;> simp

/-- The Controller piece has at most one entry. -/
theorem controllerFieldList_length_le (e : OmadaEvent) :
    (controllerFieldList e).length ≤ 1 := by
  unfold controllerFieldList
  cases e.Controller with
  | none => simp
  | some s => dsimp only; split <;> simp

/-- The Details piece has at most one entry. -/
theorem detailsFieldList_length_le (e : OmadaEvent) : (detailsFieldList e).length ≤ 1 := by
  unfold detailsFieldList
  cases e.text with
  | absent => simp
  | str s => simp
  | arr xs => dsimp only; split <;> simp

/-- buildFields emits at most three fields. -/
theorem buildFields_length_le (e : OmadaEvent) : (buildFields e).length ≤ 3 := by
  have h1 := siteFieldList_length_le e
  have h2 := controllerFieldList_length_le e
  have h3 := detailsFieldList_length_le e
  simp only [buildFields, List.length_append]
  omega

/-- Shape of every successful translation at the event level. -/
theorem translateEvent_shape (e : OmadaEvent) (now : Int) (p : DiscordPayload)
    (h : translateEvent e now = Except.ok p) :
    p.username = "Omada Controller" ∧
    p.avatar_url = "https://static.tp-link.com/favicon.ico" ∧
    p.embeds.length = 1 ∧
    (∀ emb, emb ∈ p.embeds → emb.fields.length ≤ 3) ∧
    p.embeds.length ≤ 10 ∧
    (∀ emb, emb ∈ p.embeds → emb.fields.length ≤ 25) := by
  obtain ⟨hu, ha, ts, hembeds⟩ := translateEvent_ok_embeds e now p h
  refine ⟨hu, ha, by rw [hembeds]; rfl, ?_, by rw [hembeds]; simp, ?_⟩
  · intro emb hm
    rw [hembeds] at hm
    simp at hm
    rw [hm]
    simpa using buildFields_length_le e
  · intro emb hm
    rw [hembeds] at hm
    simp at hm
    rw [hm]
    have := buildFields_length_le e
    have h3 : (buildFields e).length ≤ 25 := by omega
    simpa using h3

/-- C10: every payload produced by translate carries the constant
sender identity, exactly one embed, and at most three fields in that
embed; in particular it respects the ten-embed and twenty-five-field
delivery limits of the sender validation. -/
theorem c10_translated_shape (inp : JsInput) (now : Int) (p : DiscordPayload)
    (h : translateTop inp now = Except.ok p) :
    p.username = "Omada Controller" ∧
    p.avatar_url = "https://static.tp-link.com/favicon.ico" ∧
    p.embeds.length = 1 ∧
    (∀ emb, emb ∈ p.embeds → emb.fields.length ≤ 3) ∧
    p.embeds.length ≤ 10 ∧
    (∀ emb, emb ∈ p.embeds → emb.fields.length ≤ 25) := by
  cases inp with
  | jsNull => simp [translateTop] at h
  | jsUndef => simp [translateTop] at h
  | boolVal b => simp [translateTop] at h
  | numVal n => simp [translateTop] at h
  | strVal s => simp [translateTop] at h
  | arrVal =>
      exact translateEvent_shape
        { description := none, text := TextField.absent, timestamp := none,
          Site := none, Controller := none } now p h
  | objVal e => exact translateEvent_shape e now p h

/-- C10 witness: the shape theorem applied to the translation of a
top-level array input. -/
theorem c10_translated_shape_witness :
    ∃ p, translateTop JsInput.arrVal 0 = Except.ok p ∧
      p.embeds.length = 1 ∧ p.username = "Omada Controller" :=
  ⟨_, rfl, by
    obtain ⟨hu, -, hlen, -⟩ := c10_translated_shape JsInput.arrVal 0 _ rfl
    exact ⟨hlen, hu⟩⟩

/-- C7: the pre-send validation boundary. A content-only message whose
body has exactly 2000 characters passes validation; with 2001
characters send signals a ValidationError naming the 2000-character
limit and performs no network call; a message holding one embed with
26 sub-fields makes send signal a ValidationError naming the
25-field limit and performs no network call. -/
theorem c7_validation_boundaries (s2000 s2001 : String) (fs : List EmbedField)
    (delay lastSent now finish : Int) (net : NetOutcome)
    (h0 : s2000.length = 2000) (h0b : s2000 ≠ "")
    (h1 : s2001.length = 2001)
    (hf : fs.length = 26) :
    validatePayload { content := some s2000, embeds := none, username := none } =
      Except.ok () ∧
    (sendModel delay lastSent now finish net
        { content := some s2001, embeds := none, username := none }).outcome =
      Except.error (SendError.validation "Content must be 2000 characters or less") ∧
    (sendModel delay lastSent now finish net
        { content := some s2001, embeds := none, username := none }).networkCalled = false ∧
    (sendModel delay lastSent now finish net
        { content := none,
          embeds := some [{ title := none, description := none, color := none,
                            timestamp := none, fields := some fs, footer := none,
                            author := none }],
          username := none }).outcome =
      Except.error (SendError.validation "Embed 0 can have maximum 25 fields") ∧
    (sendModel delay lastSent now finish net
        { content := none,
          embeds := some [{ title := none, description := none, color := none,
                            timestamp := none, fields := some fs, footer := none,
                            author := none }],
          username := none }).networkCalled = false := by
  have hb0 : (s2000 == "") = false := beq_eq_false_iff_ne.mpr h0b
  have h1b : s2001 ≠ "" := by
    intro he
    rw [he] at h1
    simp at h1
  have hb1 : (s2001 == "") = false := beq_eq_false_iff_ne.mpr h1b
  have hv1 : validatePayload { content := some s2000, embeds := none, username := none } =
      Except.ok () := by
    simp [validatePayload, strOptLongerThan, hb0, h0]
  have hv2 : validatePayload { content := some s2001, embeds := none, username := none } =
      Except.error "Content must be 2000 characters or less" := by
    simp [validatePayload, strOptLongerThan, hb1, h1]
  have hv3 : validatePayload
      { content := none,
        embeds := some [{ title := none, description := none, color := none,
                          timestamp := none, fields := some fs, footer := none,
                          author := none }],
        username := none } =
      Except.error "Embed 0 can have maximum 25 fields" := by
    simp [validatePayload, validateEmbed, firstEmbedError, strOptLongerThan, hf]
    decide
  exact ⟨hv1, by simp [sendModel, hv2], by simp [sendModel, hv2],
    by simp [sendModel, hv3], by simp [sendModel, hv3]⟩

/-- C7 witness: the boundary theorem applied to concrete strings of
2000 and 2001 letters and a concrete list of 26 fields. -/
theorem c7_validation_boundaries_witness :
    validatePayload { content := some (String.mk (List.replicate 2000 'a')),
                      embeds := none, username := none } = Except.ok () ∧
    (sendModel 1000 0 0 0 (NetOutcome.fail NetFailure.timedOut)
        { content := some (String.mk (List.replicate 2001 'a')),
          embeds := none,
          username := none }).networkCalled = false ∧
    (sendModel 1000 0 0 0 (NetOutcome.fail NetFailure.timedOut)
        { content := none,
          embeds := some [{ title := none, description := none, color := none,
                            timestamp := none,
                            fields := some (List.replicate 26
                              { name := "n", value := "v", inline := false }),
                            footer := none, author := none }],
          username := none }).networkCalled = false := by
  have h := c7_validation_boundaries
    (String.mk (List.replicate 2000 'a')) (String.mk (List.replicate 2001 'a'))
    (List.replicate 26 { name := "n", value := "v", inline := false })
    1000 0 0 0 (NetOutcome.fail NetFailure.timedOut)
    (by show (List.replicate 2000 'a').length = 2000; rw [List.length_replicate])
    (by decide)
    (by show (List.replicate 2001 'a').length = 2001; rw [List.length_replicate])
    (by decide)
  exact ⟨h.1, h.2.2.1, h.2.2.2.2⟩

/-- C8: sequential spacing and update of the last-dispatch instant.
The configured minimum interval defaults to 1000 when absent. After
a first successful send completing at an instant, a second send
started less than the interval after that instant waits exactly the
remaining difference; its own update of the instant happens exactly
when its network call succeeds, and a failed send leaves the instant
unchanged. -/
theorem c8_rate_limit_spacing (delay t0 now1 fin1 now2 fin2 : Int) (st1 : Nat)
    (net2 : NetOutcome) (p1 p2 : SenderPayload)
    (hv1 : validatePayload p1 = Except.ok ())
    (hv2 : validatePayload p2 = Except.ok ())
    (hlt : now2 - fin1 < delay) :
    rateLimitDelayOf none = 1000 ∧
    (sendModel delay t0 now1 fin1 (NetOutcome.ok st1) p1).lastSentTimeAfter = fin1 ∧
    (sendModel delay fin1 now2 fin2 net2 p2).waitedMs = delay - (now2 - fin1) ∧
    (∀ st, net2 = NetOutcome.ok st →
      (sendModel delay fin1 now2 fin2 net2 p2).lastSentTimeAfter = fin2) ∧
    (∀ f2, net2 = NetOutcome.fail f2 →
      (sendModel delay fin1 now2 fin2 net2 p2).lastSentTimeAfter = fin1) := by
  refine ⟨rfl, ?_, ?_, ?_, ?_⟩
  · simp [sendModel, hv1]
  · cases net2 <;> simp [sendModel, hv2, hlt]
  · intro st hst
    rw [hst]
    simp [sendModel, hv2]
  · intro f2 hf2
    rw [hf2]
    simp [sendModel, hv2]

/-- C8 witness: the spacing theorem applied at concrete instants, with
a successful first send finishing at 5100 and a failing second send
checked at 5600 with a 1000 interval. -/
theorem c8_rate_limit_spacing_witness :
    (sendModel 1000 5100 5600 5700 (NetOutcome.fail NetFailure.timedOut)
        { content := some "hi", embeds := none, username := none }).waitedMs =
      1000 - (5600 - 5100) ∧
    (sendModel 1000 5100 5600 5700 (NetOutcome.fail NetFailure.timedOut)
        { content := some "hi", embeds := none, username := none }).lastSentTimeAfter =
      5100 := by
  have h := c8_rate_limit_spacing 1000 0 5000 5100 5600 5700 204
    (NetOutcome.fail NetFailure.timedOut)
    { content := some "hi", embeds := none, username := none }
    { content := some "hi", embeds := none, username := none }
    (by decide) (by decide) (by decide)
  exact ⟨h.2.2.1, h.2.2.2.2 NetFailure.timedOut rfl⟩

/-- C9 counterexample: a downstream response with status 400 is not
classified into the generic catch-all family; it is thrown as the
dedicated invalid-payload (ValidationError family) message, so the
claim that every failure besides 429, 404, 5xx, timeout and network
signals a GenericSendError fails at status 400. -/
theorem c9_http400_counterexample :
    classifySendFailure (NetFailure.httpError 400 "Bad Request") =
      SendError.invalidPayload "Bad Request" ∧
    (match classifySendFailure (NetFailure.httpError 400 "Bad Request") with
     | SendError.apiGeneric _ _ => true
     | SendError.generic _ => true
     | _ => false) = false := by
  exact ⟨by decide, by decide⟩

/-- C9 amended: classification of a failed dispatch is a function of the
failure cause: status 429 signals the rate-limited error, status 404
the not-found error, status 500 and above the server error, status
400 the dedicated invalid-payload error, any other error status the
generic API error; a timed-out request signals the timeout error, a
refused connection or a DNS failure the network error, and any other
rejection the generic send error. No internal retry exists: sendModel
performs at most one network call per invocation. -/
theorem c9_failure_classification (s : Nat) (m : String) :
    classifySendFailure (NetFailure.httpError 429 m) =
      SendError.rateLimited (jsOrStr m "Too many requests") ∧
    classifySendFailure (NetFailure.httpError 404 m) = SendError.notFound ∧
    (500 ≤ s → classifySendFailure (NetFailure.httpError s m) = SendError.serverError s) ∧
    classifySendFailure (NetFailure.httpError 400 m) =
      SendError.invalidPayload (jsOrStr m "Bad request") ∧
    (s ≠ 429 → s ≠ 400 → s ≠ 404 → s < 500 →
      classifySendFailure (NetFailure.httpError s m) =
        SendError.apiGeneric s (jsOrStr m "Unknown error")) ∧
    classifySendFailure NetFailure.timedOut = SendError.timeout ∧
    classifySendFailure NetFailure.connRefused = SendError.network ∧
    classifySendFailure NetFailure.dnsFail = SendError.network ∧
    classifySendFailure (NetFailure.otherFailure m) = SendError.generic m := by
  refine ⟨rfl, rfl, ?_, rfl, ?_, rfl, rfl, rfl, rfl⟩
  · intro h5
    simp only [classifySendFailure]
    rw [if_neg (by omega), if_neg (by omega), if_neg (by omega), if_pos h5]
  · intro h429 h400 h404 h5
    simp only [classifySendFailure]
    rw [if_neg h429, if_neg h400, if_neg h404, if_neg (by omega)]

/-- C9 witness: the classification theorem applied at status 503. -/
theorem c9_failure_classification_witness :
    classifySendFailure (NetFailure.httpError 503 "x") = SendError.serverError 503 :=
  (c9_failure_classification 503 "x").2.2.1 (by decide)

end Bridge
